import Mathlib

/-!
Shallow embedding of `src/tools/job.py` (slurmy): the `JobConfig` data record,
the `Job` state machine (submit / cancel / get_status / reset / retry / rerun /
update_snapshot) and the change-tracked snapshot persistence.

External interactions (the backend, the spawned local process, the filesystem,
stdout) are modelled by an `Env` record supplying the values the outside world
returns, together with an explicit trace of emitted `Effect`s.  Python
exceptions are modelled with `Except`: `Err.raised` for an explicit
`raise Exception`, `Err.noneError` for an attribute access on a missing
(`None`) local process handle.

The modules `.defs`, `.utils` and `.tracker` imported by `job.py` are not part
of the given sources; the pieces of them that matter here (the `Status` and
`Type` enumerations, and the update-tagging property setters generated by
`set_update_properties` / `update_decorator`) are modelled from the spec and
marked as such in their doc comments.  The `track` decorator on
`update_snapshot` is diagnostic only and is modelled as the identity.

The optional hooks `success_func`, `finished_func`, `post_func` are opaque
external callables taking the config; each is modelled by the value it would
return on the current config at evaluation time (`Option Bool`), respectively
by its mere presence for `post_func` (`Option Unit`).
-/

namespace Slurmy

/-- Modelled from the spec: the `Status` enumeration of `tools/defs.py`
(not under `src/`): CONFIGURED → RUNNING → FINISHED → {SUCCESS, FAILED},
plus CANCELLED. -/
inductive Status where
  | CONFIGURED
  | RUNNING
  | FINISHED
  | SUCCESS
  | FAILED
  | CANCELLED
  deriving DecidableEq

/-- Modelled from the spec: the `Type` enumeration of `tools/defs.py`
(not under `src/`): a job is either a locally spawned process or a batch
job handled by the backend. -/
inductive JobType where
  | LOCAL
  | BATCH
  deriving DecidableEq

/-- The `exitcode` field of `JobConfig` holds either an integer return code
(LOCAL, from `poll()`) or a backend-formatted string such as `"0:0"`
(BATCH, from `backend.exitcode()`). -/
inductive ExitVal where
  | int (v : Int)
  | str (v : String)
  deriving DecidableEq

/-- The static data of the backend object that `job.py` reads. -/
structure Backend where
  name : String
  runScript : String
  runArgs : List String
  log : String
  deriving DecidableEq

/-- The data of `JobConfig` (`src/tools/job.py`).  The hooks are modelled by
their evaluation result (see the file comment); `update` is the dirty flag. -/
structure JobConfig where
  backend : Backend
  name : String
  path : Option String
  tags : Finset String
  parentTags : Finset String
  successFunc : Option Bool
  finishedFunc : Option Bool
  postFunc : Option Unit
  maxRetries : Nat
  output : Option String
  jobType : JobType
  status : Status
  jobId : Option Nat
  nRetries : Nat
  exitcode : Option ExitVal
  update : Bool
  deriving DecidableEq

/-- Modelled from the spec: `set_update_properties` (`tools/utils.py`, not
under `src/`) generates a property setter per field that performs the
assignment and marks the config dirty (`update := true`).  Each `set...`
function below is one such property assignment. -/
def JobConfig.setStatus (c : JobConfig) (s : Status) : JobConfig :=
  { c with status := s, update := true }

/-- Modelled from the spec: update-tagging property assignment of `job_id`. -/
def JobConfig.setJobId (c : JobConfig) (i : Option Nat) : JobConfig :=
  { c with jobId := i, update := true }

/-- Modelled from the spec: update-tagging property assignment of `n_retries`. -/
def JobConfig.setNRetries (c : JobConfig) (n : Nat) : JobConfig :=
  { c with nRetries := n, update := true }

/-- Modelled from the spec: update-tagging property assignment of `exitcode`. -/
def JobConfig.setExitcode (c : JobConfig) (e : Option ExitVal) : JobConfig :=
  { c with exitcode := e, update := true }

/-- Modelled from the spec: update-tagging property assignment of `max_retries`. -/
def JobConfig.setMaxRetries (c : JobConfig) (n : Nat) : JobConfig :=
  { c with maxRetries := n, update := true }

/-- Modelled from the spec: update-tagging property assignment of `type`. -/
def JobConfig.setJobType (c : JobConfig) (t : JobType) : JobConfig :=
  { c with jobType := t, update := true }

/-- `JobConfig.add_tag` (`src/tools/job.py`): inserts into the appropriate tag
set; the `update_decorator` (modelled from the spec, `tools/utils.py` not
under `src/`) marks the config dirty on every call, duplicate or not. -/
def JobConfig.add_tag (c : JobConfig) (tag : String) (isParent : Bool) : JobConfig :=
  let c1 := if isParent
    then { c with parentTags := insert tag c.parentTags }
    else { c with tags := insert tag c.tags }
  { c1 with update := true }

/-- The ephemeral local process handle (`Job._local_process`): `pollResult`
is what `poll()` returns — `none` while running, the exit code once done. -/
structure LocalProc where
  pollResult : Option Int
  deriving DecidableEq

/-- The `Job` controller: one `JobConfig` plus the non-picklable local
process handle. -/
structure Job where
  config : JobConfig
  localProcess : Option LocalProc
  deriving DecidableEq

/-- The responses of the outside world during one operation: what
`backend.submit()`, `backend.status()`, `backend.exitcode()` return, the
process handle `sp.Popen` produces, and whether the log file exists. -/
structure Env where
  backendSubmitId : Nat
  backendStatus : Status
  backendExitcode : String
  spawnedProcess : LocalProc
  logExists : Bool
  deriving DecidableEq

/-- Externally visible actions emitted by the operations, in order. -/
inductive Effect where
  | spawnLocal (command : List String)
  | backendSubmit
  | backendCancel
  | backendStatusQuery
  | backendExitcodeQuery
  | terminateLocal
  | removeLog
  | writeLog
  | writeSnapshot (path : String)
  | callPostFunc
  | printRunning
  deriving DecidableEq

/-- Python exceptions: an explicit `raise Exception`, or the
`AttributeError` from calling a method on a `None` local process. -/
inductive Err where
  | raised
  | noneError
  deriving DecidableEq

/-- `Job._get_local_command`: `['/bin/bash', run_script]`, extended by
`run_args` only when that list is non-empty (Python truthiness). -/
def Job.localCommand (j : Job) : List String :=
  let command := ["/bin/bash", j.config.backend.runScript]
  if j.config.backend.runArgs.isEmpty then command
  else command ++ j.config.backend.runArgs

/-- `Job.submit`: raises unless CONFIGURED; LOCAL spawns the process,
BATCH stores `backend.submit()` in `job_id`; sets status RUNNING and
returns it. -/
def Job.submit (env : Env) (j : Job) : Except Err (Status × Job × List Effect) :=
  if j.config.status ≠ Status.CONFIGURED then
    Except.error Err.raised
  else
    match j.config.jobType with
    | JobType.LOCAL =>
      let j1 : Job := { j with localProcess := some env.spawnedProcess }
      let j2 : Job := { j1 with config := j1.config.setStatus Status.RUNNING }
      Except.ok (j2.config.status, j2, [Effect.spawnLocal j.localCommand])
    | JobType.BATCH =>
      let c1 := j.config.setJobId (some env.backendSubmitId)
      let j2 : Job := { j with config := c1.setStatus Status.RUNNING }
      Except.ok (j2.config.status, j2, [Effect.backendSubmit])

/-- `Job.cancel`: returns `none` (Python `None`) immediately on a FAILED job;
otherwise stops a RUNNING job (terminate the local process / backend cancel),
sets status CANCELLED, zeroes `max_retries` when `clear_retry`, and returns
the resulting status. -/
def Job.cancel (j : Job) (clearRetry : Bool) : Except Err (Option Status × Job × List Effect) :=
  if j.config.status = Status.FAILED then
    Except.ok (none, j, [])
  else
    let stopStep : Except Err (List Effect) :=
      if j.config.status = Status.RUNNING then
        match j.config.jobType with
        | JobType.LOCAL =>
          match j.localProcess with
          | none => Except.error Err.noneError
          | some _ => Except.ok [Effect.terminateLocal]
        | JobType.BATCH => Except.ok [Effect.backendCancel]
      else Except.ok []
    match stopStep with
    | Except.error e => Except.error e
    | Except.ok ef1 =>
      let c1 := j.config.setStatus Status.CANCELLED
      let c2 := if clearRetry then c1.setMaxRetries 0 else c1
      Except.ok (some Status.CANCELLED, { j with config := c2 }, ef1)

/-- `Job._get_local_status`: stores `poll()` into `exitcode`; still RUNNING
while it is `None`, else FINISHED plus writing the log file. -/
def Job.getLocalStatus (j : Job) : Except Err (Job × List Effect) :=
  match j.localProcess with
  | none => Except.error Err.noneError
  | some p =>
    let c1 := j.config.setExitcode (p.pollResult.map ExitVal.int)
    match p.pollResult with
    | none => Except.ok ({ j with config := c1.setStatus Status.RUNNING }, [])
    | some _ => Except.ok ({ j with config := c1.setStatus Status.FINISHED }, [Effect.writeLog])

/-- `Job._is_success`: a configured `success_func` wins; otherwise LOCAL
succeeds iff the stored exit code equals 0, BATCH stores
`backend.exitcode()` and succeeds iff it equals `"0:0"`. -/
def Job.isSuccess (env : Env) (j : Job) : Bool × Job × List Effect :=
  match j.config.successFunc with
  | some b => (b, j, [])
  | none =>
    match j.config.jobType with
    | JobType.LOCAL =>
      (j.config.exitcode == some (ExitVal.int 0), j, [])
    | JobType.BATCH =>
      let c1 := j.config.setExitcode (some (ExitVal.str env.backendExitcode))
      (env.backendExitcode == "0:0", { j with config := c1 }, [Effect.backendExitcodeQuery])

/-- `Job._finish`: invokes `post_func` when present. -/
def Job.finishEffects (j : Job) : List Effect :=
  match j.config.postFunc with
  | none => []
  | some _ => [Effect.callPostFunc]

/-- `Job.get_status`: the polling primitive.  `skip_eval` returns the cached
status untouched; otherwise a RUNNING job is resolved (LOCAL poll, or
`finished_func` / `backend.status()`), then a FINISHED job (or any job under
`force_success_check`) is classified SUCCESS / FAILED and `_finish` runs. -/
def Job.get_status (env : Env) (j : Job) (skipEval forceSuccessCheck : Bool) :
    Except Err (Status × Job × List Effect) :=
  if skipEval then
    Except.ok (j.config.status, j, [])
  else
    let step1 : Except Err (Job × List Effect) :=
      if j.config.status = Status.RUNNING then
        match j.config.jobType with
        | JobType.LOCAL => j.getLocalStatus
        | JobType.BATCH =>
          match j.config.finishedFunc with
          | some b =>
            if b then
              Except.ok ({ j with config := j.config.setStatus Status.FINISHED }, [])
            else
              Except.ok ({ j with config := j.config.setStatus Status.RUNNING }, [])
          | none =>
            Except.ok ({ j with config := j.config.setStatus env.backendStatus },
              [Effect.backendStatusQuery])
      else Except.ok (j, [])
    match step1 with
    | Except.error e => Except.error e
    | Except.ok (j1, ef1) =>
      if j1.config.status = Status.FINISHED ∨ forceSuccessCheck = true then
        let r := j1.isSuccess env
        let j2 : Job := { r.2.1 with
          config := r.2.1.config.setStatus (if r.1 then Status.SUCCESS else Status.FAILED) }
        Except.ok (j2.config.status, j2, ef1 ++ r.2.2 ++ j2.finishEffects)
      else
        Except.ok (j1.config.status, j1, ef1)

/-- Python truthiness of `self.config.path`: set means neither `None` nor
the empty string. -/
def Job.pathIsSet (j : Job) : Bool :=
  match j.config.path with
  | none => false
  | some s => !(s == "")

/-- `Job.update_snapshot`: no-op without a path or when the config is not
dirty; otherwise refreshes the status via `get_status()`, writes the
snapshot, and clears the dirty flag. -/
def Job.update_snapshot (env : Env) (j : Job) : Except Err (Job × List Effect) :=
  if j.pathIsSet = false then
    Except.ok (j, [])
  else if j.config.update = false then
    Except.ok (j, [])
  else
    match j.get_status env false false with
    | Except.error e => Except.error e
    | Except.ok (_, j1, ef1) =>
      let c2 := { j1.config with update := false }
      Except.ok ({ j1 with config := c2 }, ef1 ++ [Effect.writeSnapshot (j1.config.path.getD "")])

/-- `Job.reset`: back to CONFIGURED, clears `job_id` and the local process
handle, optionally zeroes `n_retries`, removes an existing log file, then
updates the snapshot. -/
def Job.reset (env : Env) (j : Job) (resetRetries : Bool) : Except Err (Job × List Effect) :=
  let c1 := (j.config.setStatus Status.CONFIGURED).setJobId none
  let j1 : Job := { j with config := c1, localProcess := none }
  let j2 : Job := if resetRetries then { j1 with config := j1.config.setNRetries 0 } else j1
  let ef1 : List Effect := if env.logExists then [Effect.removeLog] else []
  match j2.update_snapshot env with
  | Except.error e => Except.error e
  | Except.ok (j3, ef2) => Except.ok (j3, ef1 ++ ef2)

/-- `Job._do_retry`: the retry-allowed predicate. -/
def Job.do_retry (j : Job) : Bool :=
  decide (0 < j.config.maxRetries) && decide (j.config.nRetries < j.config.maxRetries)

/-- The `Job.type` property setter: raises unless CONFIGURED. -/
def Job.setType (j : Job) (t : JobType) : Except Err Job :=
  if j.config.status ≠ Status.CONFIGURED then Except.error Err.raised
  else Except.ok { j with config := j.config.setJobType t }

/-- `Job._retry`: refused (returning `None`) when the budget forbids it or
when RUNNING without `force`; otherwise cancel-if-running-and-forced, reset
keeping `n_retries`, optional type change, increment `n_retries`, optional
resubmission; returns the final status. -/
def Job.retry (env : Env) (j : Job) (force submitFlag ignoreMaxRetries : Bool)
    (jobType : Option JobType) : Except Err (Option Status × Job × List Effect) :=
  if ignoreMaxRetries = false ∧ j.do_retry = false then
    Except.ok (none, j, [])
  else
    let runningStep : Except Err (Option (Job × List Effect)) :=
      if j.config.status = Status.RUNNING then
        if force then
          match j.cancel false with
          | Except.error e => Except.error e
          | Except.ok (_, j1, ef1) => Except.ok (some (j1, ef1))
        else Except.ok none
      else Except.ok (some (j, []))
    match runningStep with
    | Except.error e => Except.error e
    | Except.ok none => Except.ok (none, j, [Effect.printRunning])
    | Except.ok (some (j1, ef1)) =>
      match j1.reset env false with
      | Except.error e => Except.error e
      | Except.ok (j2, ef2) =>
        let typeStep : Except Err Job :=
          match jobType with
          | none => Except.ok j2
          | some t => j2.setType t
        match typeStep with
        | Except.error e => Except.error e
        | Except.ok j3 =>
          let j4 : Job := { j3 with config := j3.config.setNRetries (j3.config.nRetries + 1) }
          if submitFlag then
            match j4.submit env with
            | Except.error e => Except.error e
            | Except.ok (_, j5, ef5) =>
              Except.ok (some j5.config.status, j5, ef1 ++ ef2 ++ ef5)
          else Except.ok (some j4.config.status, j4, ef1 ++ ef2)

/-- `Job.rerun`: `_retry` with `force = true` and `ignore_max_retries = true`
(and the default `submit = true`); its own return value is `None`. -/
def Job.rerun (env : Env) (j : Job) (jobType : Option JobType) :
    Except Err (Job × List Effect) :=
  match j.retry env true true true jobType with
  | Except.error e => Except.error e
  | Except.ok (_, j1, ef1) => Except.ok (j1, ef1)

/-- Concrete backend used by the witnesses. -/
def backend0 : Backend :=
  { name := "job", runScript := "run.sh", runArgs := [], log := "log.txt" }

/-- Concrete config builder used by the witnesses. -/
def mkConfig (ty : JobType) (st : Status) : JobConfig :=
  { backend := backend0, name := "job", path := none, tags := ∅, parentTags := ∅,
    successFunc := none, finishedFunc := none, postFunc := none, maxRetries := 0,
    output := none, jobType := ty, status := st, jobId := none, nRetries := 0,
    exitcode := none, update := false }

/-- Concrete job builder used by the witnesses. -/
def mkJob (ty : JobType) (st : Status) : Job :=
  { config := mkConfig ty st, localProcess := none }

/-- Concrete environment used by the witnesses. -/
def env0 : Env :=
  { backendSubmitId := 7, backendStatus := Status.RUNNING, backendExitcode := "0:0",
    spawnedProcess := { pollResult := none }, logExists := false }

/-- FAILED BATCH job with a budget of one retry, used by the witnesses. -/
def jobFailedR1 : Job :=
  Job.mk { mkConfig JobType.BATCH Status.FAILED with maxRetries := 1 } none

/-- The job `jobFailedR1` after one completed retry without resubmission. -/
def jobFailedR1Retried : Job :=
  Job.mk { mkConfig JobType.BATCH Status.FAILED with maxRetries := 1, status := Status.CONFIGURED, nRetries := 1, update := true } none

/-- The job `jobFailedR1` after a rerun (reset, increment, resubmitted). -/
def jobFailedR1Rerun : Job :=
  Job.mk { mkConfig JobType.BATCH Status.FAILED with maxRetries := 1, status := Status.RUNNING, jobId := some 7, nRetries := 1, update := true } none

/-- RUNNING BATCH job with a budget of one retry, used by the witnesses. -/
def jobRunningR1 : Job :=
  Job.mk { mkConfig JobType.BATCH Status.RUNNING with maxRetries := 1 } none

/-- The job `jobRunningR1` after a forced retry without resubmission. -/
def jobRunningR1Retried : Job :=
  Job.mk { mkConfig JobType.BATCH Status.RUNNING with maxRetries := 1, status := Status.CONFIGURED, nRetries := 1, update := true } none

/-- RUNNING BATCH job after `cancel`, used by the witnesses. -/
def jobRunningCancelled : Job :=
  Job.mk { mkConfig JobType.BATCH Status.RUNNING with status := Status.CANCELLED, update := true } none

/-- CONFIGURED BATCH job with a snapshot path and a clean config. -/
def jobPathClean : Job :=
  Job.mk { mkConfig JobType.BATCH Status.CONFIGURED with path := some "snap.pkl" } none

/-- CONFIGURED BATCH job with a snapshot path and a dirty config. -/
def jobPathDirty : Job :=
  Job.mk { mkConfig JobType.BATCH Status.CONFIGURED with path := some "snap.pkl", update := true } none

/-- The tag set `add_tag` targets: `parent_tags` when `is_parent`, else `tags`. -/
def JobConfig.tagSet (c : JobConfig) (isParent : Bool) : Finset String :=
  if isParent then c.parentTags else c.tags

/-- C4: `get_status` with `skip_eval = true` returns the stored status and
performs no mutation and no external effect, whatever the prior state and
whatever `force_success_check` is. -/
theorem c4_get_status_skip_eval_pure (env : Env) (j : Job) (fsc : Bool) :
    j.get_status env true fsc = Except.ok (j.config.status, j, []) := rfl

/-- C7: off the CONFIGURED state, both `submit()` and assigning a new job
type raise, and neither produces any mutated state. -/
theorem c7_illegal_state_raises (env : Env) (j : Job) (t : JobType)
    (h : j.config.status ≠ Status.CONFIGURED) :
    j.submit env = Except.error Err.raised ∧ j.setType t = Except.error Err.raised := by
  constructor <;> simp [Job.submit, Job.setType, h]

/-- Witness for C7 at a RUNNING job. -/
theorem c7_witness :
    (mkJob JobType.BATCH Status.RUNNING).submit env0 = Except.error Err.raised ∧
    (mkJob JobType.BATCH Status.RUNNING).setType JobType.LOCAL = Except.error Err.raised :=
  c7_illegal_state_raises env0 (mkJob JobType.BATCH Status.RUNNING) JobType.LOCAL (by decide)

/-- C10: on a FAILED job, `cancel(clear_retry := true)` takes the early
no-op return before the `clear_retry` handling: the job (in particular
`max_retries`) is returned entirely unchanged. -/
theorem c10_cancel_failed_ignores_clear_retry (j : Job)
    (h : j.config.status = Status.FAILED) :
    j.cancel true = Except.ok (none, j, []) := by
  simp [Job.cancel, h]

/-- Witness for C10 at a FAILED job with a nonzero retry budget. -/
theorem c10_witness :
    Job.cancel ⟨{ mkConfig JobType.BATCH Status.FAILED with maxRetries := 3 }, none⟩ true =
      Except.ok (none, ⟨{ mkConfig JobType.BATCH Status.FAILED with maxRetries := 3 }, none⟩, []) :=
  c10_cancel_failed_ignores_clear_retry _ rfl

/-- C9: `add_tag` always marks the config dirty; inserting a tag already in
the targeted set keeps that set's cardinality, inserting a new one grows it
by exactly one. -/
theorem c9_add_tag_card (c : JobConfig) (tag : String) (isParent : Bool) :
    (c.add_tag tag isParent).update = true ∧
    (tag ∈ c.tagSet isParent →
      ((c.add_tag tag isParent).tagSet isParent).card = (c.tagSet isParent).card) ∧
    (tag ∉ c.tagSet isParent →
      ((c.add_tag tag isParent).tagSet isParent).card = (c.tagSet isParent).card + 1) := by
  cases isParent with
  | false =>
    refine ⟨rfl, ?_, ?_⟩
    · intro h
      simp [JobConfig.tagSet] at h ⊢
      simp [JobConfig.add_tag, Finset.insert_eq_self.mpr h]
    · intro h
      simp [JobConfig.tagSet] at h ⊢
      simp [JobConfig.add_tag, Finset.card_insert_of_not_mem h]
  | true =>
    refine ⟨rfl, ?_, ?_⟩
    · intro h
      simp [JobConfig.tagSet] at h ⊢
      simp [JobConfig.add_tag, Finset.insert_eq_self.mpr h]
    · intro h
      simp [JobConfig.tagSet] at h ⊢
      simp [JobConfig.add_tag, Finset.card_insert_of_not_mem h]

/-- Witness for C9: a fresh tag grows the set by one and marks dirty; adding
the same tag again keeps the cardinality yet marks dirty. -/
theorem c9_witness :
    ((mkConfig JobType.BATCH Status.CONFIGURED).add_tag "x" false).update = true ∧
    (((mkConfig JobType.BATCH Status.CONFIGURED).add_tag "x" false).tagSet false).card =
      ((mkConfig JobType.BATCH Status.CONFIGURED).tagSet false).card + 1 ∧
    ((((mkConfig JobType.BATCH Status.CONFIGURED).add_tag "x" false).add_tag "x" false).tagSet
        false).card =
      (((mkConfig JobType.BATCH Status.CONFIGURED).add_tag "x" false).tagSet false).card :=
  ⟨(c9_add_tag_card (mkConfig JobType.BATCH Status.CONFIGURED) "x" false).1,
   (c9_add_tag_card (mkConfig JobType.BATCH Status.CONFIGURED) "x" false).2.2 (by decide),
   (c9_add_tag_card ((mkConfig JobType.BATCH Status.CONFIGURED).add_tag "x" false) "x"
      false).2.1 (by decide)⟩

/-- C1: `submit()` on a CONFIGURED job returns RUNNING and sets the status
to RUNNING; a BATCH job stores the backend-returned id in `job_id`, a LOCAL
job spawns the local process and does not contact the backend (its `job_id`
is untouched and the only effect is the spawn). -/
theorem c1_submit_configured (env : Env) (j : Job)
    (h : j.config.status = Status.CONFIGURED) :
    ∃ j1 ef, j.submit env = Except.ok (Status.RUNNING, j1, ef) ∧
      j1.config.status = Status.RUNNING ∧
      (j.config.jobType = JobType.BATCH →
        j1.config.jobId = some env.backendSubmitId ∧ ef = [Effect.backendSubmit]) ∧
      (j.config.jobType = JobType.LOCAL →
        j1.localProcess = some env.spawnedProcess ∧
        j1.config.jobId = j.config.jobId ∧
        ef = [Effect.spawnLocal j.localCommand]) := by
  cases hjt : j.config.jobType with
  | LOCAL =>
    refine ⟨Job.mk (j.config.setStatus Status.RUNNING) (some env.spawnedProcess),
      [Effect.spawnLocal j.localCommand], ?_, rfl, ?_, ?_⟩
    · simp [Job.submit, h, hjt, JobConfig.setStatus]
    · intro hb; exact absurd hb (by decide)
    · intro _; exact ⟨rfl, rfl, rfl⟩
  | BATCH =>
    refine ⟨Job.mk ((j.config.setJobId (some env.backendSubmitId)).setStatus Status.RUNNING)
      j.localProcess, [Effect.backendSubmit], ?_, rfl, ?_, ?_⟩
    · simp [Job.submit, h, hjt, JobConfig.setStatus, JobConfig.setJobId]
    · intro _; exact ⟨rfl, rfl⟩
    · intro hb; exact absurd hb (by decide)

/-- Witness for C1 at a CONFIGURED BATCH job. -/
theorem c1_witness :
    ∃ j1 ef, (mkJob JobType.BATCH Status.CONFIGURED).submit env0 =
        Except.ok (Status.RUNNING, j1, ef) ∧
      j1.config.status = Status.RUNNING ∧
      ((mkJob JobType.BATCH Status.CONFIGURED).config.jobType = JobType.BATCH →
        j1.config.jobId = some env0.backendSubmitId ∧ ef = [Effect.backendSubmit]) ∧
      ((mkJob JobType.BATCH Status.CONFIGURED).config.jobType = JobType.LOCAL →
        j1.localProcess = some env0.spawnedProcess ∧
        j1.config.jobId = (mkJob JobType.BATCH Status.CONFIGURED).config.jobId ∧
        ef = [Effect.spawnLocal (mkJob JobType.BATCH Status.CONFIGURED).localCommand]) :=
  c1_submit_configured env0 (mkJob JobType.BATCH Status.CONFIGURED) rfl

/-- Helper: `_is_success` never touches `n_retries`. -/
theorem isSuccess_nRetries (env : Env) (j : Job) :
    (j.isSuccess env).2.1.config.nRetries = j.config.nRetries := by
  unfold Job.isSuccess
  cases hsf : j.config.successFunc with
  | some b => rfl
  | none =>
    cases hjt : j.config.jobType with
    | LOCAL => rfl
    | BATCH => simp [JobConfig.setExitcode]

/-- Helper: `_get_local_status` never touches `n_retries`. -/
theorem getLocalStatus_nRetries (j j1 : Job) (ef : List Effect)
    (h : j.getLocalStatus = Except.ok (j1, ef)) :
    j1.config.nRetries = j.config.nRetries := by
  unfold Job.getLocalStatus at h
  cases hlp : j.localProcess with
  | none => rw [hlp] at h; cases h
  | some p =>
    rw [hlp] at h
    cases hpr : p.pollResult with
    | none =>
      simp [hpr] at h
      obtain ⟨rfl, -⟩ := h
      simp [JobConfig.setExitcode, JobConfig.setStatus]
    | some code =>
      simp [hpr] at h
      obtain ⟨rfl, -⟩ := h
      simp [JobConfig.setExitcode, JobConfig.setStatus]

/-- Helper: full characterization of the successful outcomes of `cancel`:
`n_retries` is always preserved; the FAILED early return changes nothing and
yields no status; every other entry state ends CANCELLED with the matching
stop effect, and `max_retries` survives when `clear_retry` is off. -/
theorem cancel_ok_spec (j : Job) (cr : Bool) (os : Option Status) (j1 : Job)
    (ef : List Effect) (h : j.cancel cr = Except.ok (os, j1, ef)) :
    j1.config.nRetries = j.config.nRetries ∧
    (j.config.status = Status.FAILED → os = none ∧ j1 = j ∧ ef = []) ∧
    (j.config.status ≠ Status.FAILED →
      os = some Status.CANCELLED ∧ j1.config.status = Status.CANCELLED ∧
      j1.localProcess = j.localProcess ∧
      (j.config.status = Status.RUNNING →
        ef = [if j.config.jobType = JobType.LOCAL then Effect.terminateLocal
              else Effect.backendCancel]) ∧
      (j.config.status ≠ Status.RUNNING → ef = []) ∧
      (cr = false → j1.config.maxRetries = j.config.maxRetries)) := by
  by_cases hF : j.config.status = Status.FAILED
  · simp [Job.cancel, hF] at h
    obtain ⟨rfl, rfl, rfl⟩ := h
    exact ⟨rfl, fun _ => ⟨rfl, rfl, rfl⟩, fun hne => absurd hF hne⟩
  · cases cr with
    | false =>
      by_cases hr : j.config.status = Status.RUNNING
      · cases hjt : j.config.jobType with
        | LOCAL =>
          cases hlp : j.localProcess with
          | none => simp [Job.cancel, hF, hr, hjt, hlp] at h
          | some p =>
            simp [Job.cancel, hF, hr, hjt, hlp] at h
            obtain ⟨rfl, rfl, rfl⟩ := h
            simp [JobConfig.setStatus, hF, hr, hlp]
        | BATCH =>
          simp [Job.cancel, hF, hr, hjt] at h
          obtain ⟨rfl, rfl, rfl⟩ := h
          simp [JobConfig.setStatus, hF, hr]
      · simp [Job.cancel, hF, hr] at h
        obtain ⟨rfl, rfl, rfl⟩ := h
        simp [JobConfig.setStatus, hF, hr]
    | true =>
      by_cases hr : j.config.status = Status.RUNNING
      · cases hjt : j.config.jobType with
        | LOCAL =>
          cases hlp : j.localProcess with
          | none => simp [Job.cancel, hF, hr, hjt, hlp] at h
          | some p =>
            simp [Job.cancel, hF, hr, hjt, hlp] at h
            obtain ⟨rfl, rfl, rfl⟩ := h
            simp [JobConfig.setStatus, JobConfig.setMaxRetries, hF, hr, hlp]
        | BATCH =>
          simp [Job.cancel, hF, hr, hjt] at h
          obtain ⟨rfl, rfl, rfl⟩ := h
          simp [JobConfig.setStatus, JobConfig.setMaxRetries, hF, hr]
      · simp [Job.cancel, hF, hr] at h
        obtain ⟨rfl, rfl, rfl⟩ := h
        simp [JobConfig.setStatus, JobConfig.setMaxRetries, hF, hr]

/-- Helper: `get_status` never touches `n_retries`. -/
theorem get_status_nRetries (env : Env) (j : Job) (se fsc : Bool) (st : Status)
    (j1 : Job) (ef : List Effect)
    (h : j.get_status env se fsc = Except.ok (st, j1, ef)) :
    j1.config.nRetries = j.config.nRetries := by
  cases se with
  | true =>
    simp [Job.get_status] at h
    obtain ⟨-, rfl, -⟩ := h
    rfl
  | false =>
    by_cases hr : j.config.status = Status.RUNNING
    · cases hjt : j.config.jobType with
      | LOCAL =>
        cases hgs : j.getLocalStatus with
        | error e => simp [Job.get_status, hr, hjt, hgs] at h
        | ok r =>
          obtain ⟨ja, efa⟩ := r
          have hja := getLocalStatus_nRetries j ja efa hgs
          by_cases hfin : ja.config.status = Status.FINISHED ∨ fsc = true
          · simp [Job.get_status, hr, hjt, hgs, hfin] at h
            obtain ⟨-, rfl, -⟩ := h
            simp [isSuccess_nRetries, JobConfig.setStatus, hja]
          · simp [Job.get_status, hr, hjt, hgs, hfin] at h
            obtain ⟨-, rfl, -⟩ := h
            exact hja
      | BATCH =>
        cases hff : j.config.finishedFunc with
        | some b =>
          cases b with
          | true =>
            simp [Job.get_status, hr, hjt, hff, JobConfig.setStatus] at h
            obtain ⟨-, rfl, -⟩ := h
            simp [isSuccess_nRetries, JobConfig.setStatus]
          | false =>
            cases fsc with
            | true =>
              simp [Job.get_status, hr, hjt, hff, JobConfig.setStatus] at h
              obtain ⟨-, rfl, -⟩ := h
              simp [isSuccess_nRetries, JobConfig.setStatus]
            | false =>
              simp [Job.get_status, hr, hjt, hff, JobConfig.setStatus] at h
              obtain ⟨-, rfl, -⟩ := h
              simp [JobConfig.setStatus]
        | none =>
          by_cases hfin :
              ({ j with config := j.config.setStatus env.backendStatus } :
                Job).config.status = Status.FINISHED ∨ fsc = true
          · simp [Job.get_status, hr, hjt, hff, hfin] at h
            obtain ⟨-, rfl, -⟩ := h
            simp [isSuccess_nRetries, JobConfig.setStatus]
          · simp [Job.get_status, hr, hjt, hff, hfin] at h
            obtain ⟨-, rfl, -⟩ := h
            simp [JobConfig.setStatus]
    · by_cases hfin : j.config.status = Status.FINISHED ∨ fsc = true
      · simp [Job.get_status, hr, hfin] at h
        obtain ⟨-, rfl, -⟩ := h
        simp [isSuccess_nRetries, JobConfig.setStatus]
      · simp [Job.get_status, hr, hfin] at h
        obtain ⟨-, rfl, -⟩ := h
        rfl

/-- Helper: `update_snapshot` never touches `n_retries`. -/
theorem update_snapshot_nRetries (env : Env) (j j1 : Job) (ef : List Effect)
    (h : j.update_snapshot env = Except.ok (j1, ef)) :
    j1.config.nRetries = j.config.nRetries := by
  by_cases hp : j.pathIsSet = false
  · simp [Job.update_snapshot, hp] at h
    obtain ⟨rfl, -⟩ := h
    rfl
  · by_cases hu : j.config.update = false
    · simp [Job.update_snapshot, hp, hu] at h
      obtain ⟨rfl, -⟩ := h
      rfl
    · cases hgs : j.get_status env false false with
      | error e => simp [Job.update_snapshot, hp, hu, hgs] at h
      | ok r =>
        obtain ⟨st, ja, efa⟩ := r
        simp [Job.update_snapshot, hp, hu, hgs] at h
        obtain ⟨rfl, -⟩ := h
        simpa using get_status_nRetries env j false false st ja efa hgs

/-- Helper: `reset` with `reset_retries = false` never touches `n_retries`. -/
theorem reset_false_nRetries (env : Env) (j j1 : Job) (ef : List Effect)
    (h : j.reset env false = Except.ok (j1, ef)) :
    j1.config.nRetries = j.config.nRetries := by
  simp only [Job.reset, Bool.false_eq_true, if_false] at h
  cases hus : Job.update_snapshot env
      (Job.mk ((j.config.setStatus Status.CONFIGURED).setJobId none) none) with
  | error e => rw [hus] at h; cases h
  | ok r =>
    obtain ⟨j3, ef2⟩ := r
    rw [hus] at h
    simp only [Except.ok.injEq, Prod.mk.injEq] at h
    obtain ⟨rfl, -⟩ := h
    simpa [JobConfig.setStatus, JobConfig.setJobId] using
      update_snapshot_nRetries env _ _ _ hus

/-- Helper: `submit` never touches `n_retries`. -/
theorem submit_nRetries (env : Env) (j : Job) (st : Status) (j1 : Job)
    (ef : List Effect) (h : j.submit env = Except.ok (st, j1, ef)) :
    j1.config.nRetries = j.config.nRetries := by
  by_cases hc : j.config.status = Status.CONFIGURED
  · cases hjt : j.config.jobType with
    | LOCAL =>
      simp [Job.submit, hc, hjt] at h
      obtain ⟨-, rfl, -⟩ := h
      simp [JobConfig.setStatus]
    | BATCH =>
      simp [Job.submit, hc, hjt] at h
      obtain ⟨-, rfl, -⟩ := h
      simp [JobConfig.setStatus, JobConfig.setJobId]
  · simp [Job.submit, hc] at h

/-- Helper: the `type` setter never touches `n_retries`. -/
theorem setType_nRetries (j : Job) (t : JobType) (j1 : Job)
    (h : j.setType t = Except.ok j1) :
    j1.config.nRetries = j.config.nRetries := by
  by_cases hc : j.config.status = Status.CONFIGURED
  · simp [Job.setType, hc] at h
    obtain ⟨rfl⟩ := h
    simp [JobConfig.setJobType]
  · simp [Job.setType, hc] at h

/-- Helper: outcomes of `_retry`.  A refusal (returned status `none`) leaves
the job untouched and only happens off `ignore_max_retries` or off `force`;
a completed retry (returned status `some`) incremented `n_retries` by exactly
one, and — when the job was RUNNING — cancelled it first (the matching stop
effect heads the effect trace). -/
theorem retry_ok_spec (env : Env) (j : Job) (f s ig : Bool) (jt : Option JobType)
    (os : Option Status) (j1 : Job) (ef : List Effect)
    (h : j.retry env f s ig jt = Except.ok (os, j1, ef)) :
    (os = none → j1 = j ∧ (ig = false ∨ f = false)) ∧
    (os.isSome = true →
      j1.config.nRetries = j.config.nRetries + 1 ∧
      (j.config.status = Status.RUNNING →
        ∃ rest, ef = (if j.config.jobType = JobType.LOCAL then Effect.terminateLocal
                      else Effect.backendCancel) :: rest)) := by
  by_cases hgate : ig = false ∧ j.do_retry = false
  · simp [Job.retry, hgate] at h
    obtain ⟨rfl, rfl, rfl⟩ := h
    exact ⟨fun _ => ⟨rfl, Or.inl hgate.1⟩, fun hs => by simp at hs⟩
  · by_cases hr : j.config.status = Status.RUNNING
    · cases f with
      | false =>
        simp [Job.retry, hgate, hr] at h
        obtain ⟨rfl, rfl, rfl⟩ := h
        exact ⟨fun _ => ⟨rfl, Or.inr rfl⟩, fun hs => by simp at hs⟩
      | true =>
        cases hc : j.cancel false with
        | error e => simp [Job.retry, hgate, hr, hc] at h
        | ok rc =>
          obtain ⟨oc, jc, efc⟩ := rc
          have hspec := cancel_ok_spec j false oc jc efc hc
          have hcn : jc.config.nRetries = j.config.nRetries := hspec.1
          have hefc : efc = [if j.config.jobType = JobType.LOCAL then Effect.terminateLocal
              else Effect.backendCancel] := ((hspec.2.2 (by simp [hr])).2.2.2.1) hr
          simp [Job.retry, hgate, hr, hc] at h
          split at h
          · simp at h
          · rename_i j2 ef2 hrs
            have hn2 := reset_false_nRetries env jc j2 ef2 hrs
            split at h
            · simp at h
            · rename_i j3 hts
              have hn3 : j3.config.nRetries = j2.config.nRetries := by
                cases jt with
                | none =>
                  simp only [Except.ok.injEq] at hts
                  subst hts; rfl
                | some t => exact setType_nRetries j2 t j3 hts
              split at h
              · split at h
                · simp at h
                · rename_i st5 j5 ef5 hsub
                  simp only [Except.ok.injEq, Prod.mk.injEq] at h
                  obtain ⟨rfl, rfl, rfl⟩ := h
                  refine ⟨fun hno => absurd hno (by simp), fun _ => ⟨?_, fun _ => ?_⟩⟩
                  · have h5 := submit_nRetries env _ _ _ _ hsub
                    simp [JobConfig.setNRetries] at h5
                    simp [h5, hn3, hn2, hcn]
                  · exact ⟨ef2 ++ ef5, by simp [hefc]⟩
              · simp only [Except.ok.injEq, Prod.mk.injEq] at h
                obtain ⟨rfl, rfl, rfl⟩ := h
                refine ⟨fun hno => absurd hno (by simp), fun _ => ⟨?_, fun _ => ?_⟩⟩
                · simp [JobConfig.setNRetries, hn3, hn2, hcn]
                · exact ⟨ef2, by simp [hefc]⟩
    · simp [Job.retry, hgate, hr] at h
      split at h
      · simp at h
      · rename_i j2 ef2 hrs
        have hn2 := reset_false_nRetries env j j2 ef2 hrs
        split at h
        · simp at h
        · rename_i j3 hts
          have hn3 : j3.config.nRetries = j2.config.nRetries := by
            cases jt with
            | none =>
              simp only [Except.ok.injEq] at hts
              subst hts; rfl
            | some t => exact setType_nRetries j2 t j3 hts
          split at h
          · split at h
            · simp at h
            · rename_i st5 j5 ef5 hsub
              simp only [Except.ok.injEq, Prod.mk.injEq] at h
              obtain ⟨rfl, rfl, rfl⟩ := h
              refine ⟨fun hno => absurd hno (by simp), fun _ => ⟨?_, fun hrun => ?_⟩⟩
              · have h5 := submit_nRetries env _ _ _ _ hsub
                simp [JobConfig.setNRetries] at h5
                simp [h5, hn3, hn2]
              · exact absurd hrun hr
          · simp only [Except.ok.injEq, Prod.mk.injEq] at h
            obtain ⟨rfl, rfl, rfl⟩ := h
            refine ⟨fun hno => absurd hno (by simp), fun _ => ⟨?_, fun hrun => ?_⟩⟩
            · simp [JobConfig.setNRetries, hn3, hn2]
            · exact absurd hrun hr

/-- C3: the retry-allowed predicate holds iff `max_retries > 0` and
`n_retries < max_retries`; an automatic retry whose predicate is false
returns with no mutation and no effect; a retry that proceeds increments
`n_retries` by exactly one; `rerun()` always proceeds regardless of the
budget because it forces `ignore_max_retries`. -/
theorem c3_retry_budget (env : Env) (j : Job) :
    (j.do_retry = true ↔
      0 < j.config.maxRetries ∧ j.config.nRetries < j.config.maxRetries) ∧
    (j.do_retry = false → ∀ f s jt, j.retry env f s false jt = Except.ok (none, j, [])) ∧
    (∀ f s ig jt st j1 ef, j.retry env f s ig jt = Except.ok (some st, j1, ef) →
      j1.config.nRetries = j.config.nRetries + 1) ∧
    (∀ jt j1 ef, j.rerun env jt = Except.ok (j1, ef) →
      j1.config.nRetries = j.config.nRetries + 1) := by
  refine ⟨?_, ?_, ?_, ?_⟩
  · simp [Job.do_retry]
  · intro hdr f s jt
    simp [Job.retry, hdr]
  · intro f s ig jt st j1 ef h
    exact ((retry_ok_spec env j f s ig jt _ j1 ef h).2 (by simp)).1
  · intro jt j1 ef h
    unfold Job.rerun at h
    cases hre : j.retry env true true true jt with
    | error e => rw [hre] at h; cases h
    | ok r =>
      obtain ⟨or, jr, efr⟩ := r
      rw [hre] at h
      simp only [Except.ok.injEq, Prod.mk.injEq] at h
      obtain ⟨rfl, -⟩ := h
      have hspec := retry_ok_spec env j true true true jt or jr efr hre
      cases or with
      | none => rcases (hspec.1 rfl).2 with h' | h' <;> cases h'
      | some st => exact (hspec.2 (by simp)).1

/-- Witness for C3: with `max_retries = 1` the predicate holds, a retry
increments `n_retries` to 1, and a rerun does the same; with
`max_retries = 0` the automatic retry is refused unchanged. -/
theorem c3_witness :
    jobFailedR1.do_retry = true ∧
    (mkJob JobType.BATCH Status.FAILED).retry env0 false false false none =
      Except.ok (none, mkJob JobType.BATCH Status.FAILED, []) ∧
    jobFailedR1Retried.config.nRetries = jobFailedR1.config.nRetries + 1 ∧
    jobFailedR1Rerun.config.nRetries = jobFailedR1.config.nRetries + 1 :=
  ⟨(c3_retry_budget env0 jobFailedR1).1.mpr ⟨by decide, by decide⟩,
   (c3_retry_budget env0 (mkJob JobType.BATCH Status.FAILED)).2.1 rfl false false none,
   (c3_retry_budget env0 jobFailedR1).2.2.1 false false false none Status.CONFIGURED
     jobFailedR1Retried [] (by rfl),
   (c3_retry_budget env0 jobFailedR1).2.2.2 none jobFailedR1Rerun
     [Effect.backendSubmit] (by rfl)⟩

/-- C8: a retry on a RUNNING job with `force = false` is refused with the
job completely unchanged (at most the refusal message is printed); with
`force = true`, a completed retry cancelled the job first — the matching
stop action heads the effect trace — and incremented `n_retries`. -/
theorem c8_retry_running (env : Env) (j : Job)
    (h : j.config.status = Status.RUNNING) :
    (∀ s ig jt, (ig = true ∨ j.do_retry = true) →
      j.retry env false s ig jt = Except.ok (none, j, [Effect.printRunning])) ∧
    (∀ s jt, j.do_retry = false →
      j.retry env false s false jt = Except.ok (none, j, [])) ∧
    (∀ s ig jt st j1 ef, j.retry env true s ig jt = Except.ok (some st, j1, ef) →
      j1.config.nRetries = j.config.nRetries + 1 ∧
      ∃ rest, ef = (if j.config.jobType = JobType.LOCAL then Effect.terminateLocal
                    else Effect.backendCancel) :: rest) := by
  refine ⟨?_, ?_, ?_⟩
  · intro s ig jt hp
    have hgate : ¬(ig = false ∧ j.do_retry = false) := by
      rcases hp with h1 | h1 <;> simp [h1]
    simp [Job.retry, hgate, h]
  · intro s jt hdr
    simp [Job.retry, hdr]
  · intro s ig jt st j1 ef hre
    have hspec := (retry_ok_spec env j true s ig jt _ j1 ef hre).2 (by simp)
    exact ⟨hspec.1, hspec.2 h⟩

/-- Witness for C8 at a RUNNING BATCH job: refusal keeps the job unchanged,
and a forced retry cancels at the backend and increments `n_retries`. -/
theorem c8_witness :
    jobRunningR1.retry env0 false false true none =
      Except.ok (none, jobRunningR1, [Effect.printRunning]) ∧
    (mkJob JobType.BATCH Status.RUNNING).retry env0 false false false none =
      Except.ok (none, mkJob JobType.BATCH Status.RUNNING, []) ∧
    jobRunningR1Retried.config.nRetries = jobRunningR1.config.nRetries + 1 ∧
    (∃ rest, [Effect.backendCancel] =
      (if jobRunningR1.config.jobType = JobType.LOCAL
        then Effect.terminateLocal else Effect.backendCancel) :: rest) :=
  ⟨(c8_retry_running env0 jobRunningR1 rfl).1 false true none (Or.inl rfl),
   (c8_retry_running env0 (mkJob JobType.BATCH Status.RUNNING) rfl).2.1 false none rfl,
   ((c8_retry_running env0 jobRunningR1 rfl).2.2 false true none Status.CONFIGURED
     jobRunningR1Retried [Effect.backendCancel] (by rfl)).1,
   ((c8_retry_running env0 jobRunningR1 rfl).2.2 false true none Status.CONFIGURED
     jobRunningR1Retried [Effect.backendCancel] (by rfl)).2⟩

/-- C5 counterexample: `cancel()` on a FAILED job returns Python `None`
(no status at all), not the stored FAILED status, so `cancel` does not
return the resulting job status in every case. -/
theorem c5_counterexample :
    (mkJob JobType.BATCH Status.FAILED).cancel false =
      Except.ok ((none : Option Status), mkJob JobType.BATCH Status.FAILED, []) ∧
    (none : Option Status).isSome = false :=
  ⟨rfl, rfl⟩

/-- C5 amended: on a FAILED job `cancel` is a no-op returning no status;
in every other case a returning `cancel` yields CANCELLED, sets the status
to CANCELLED, and — when RUNNING — terminates the local process or cancels
at the backend. -/
theorem c5_cancel_amended (j : Job) (cr : Bool) :
    (j.config.status = Status.FAILED → j.cancel cr = Except.ok (none, j, [])) ∧
    (∀ os j1 ef, j.cancel cr = Except.ok (os, j1, ef) →
      j.config.status ≠ Status.FAILED →
      os = some Status.CANCELLED ∧ j1.config.status = Status.CANCELLED ∧
      (j.config.status = Status.RUNNING →
        ef = [if j.config.jobType = JobType.LOCAL then Effect.terminateLocal
              else Effect.backendCancel]) ∧
      (j.config.status ≠ Status.RUNNING → ef = [])) := by
  constructor
  · intro hF; simp [Job.cancel, hF]
  · intro os j1 ef h hne
    obtain ⟨-, -, h3⟩ := cancel_ok_spec j cr os j1 ef h
    obtain ⟨h31, h32, -, h34, h35, -⟩ := h3 hne
    exact ⟨h31, h32, h34, h35⟩

/-- Witness for C5: the FAILED no-op, and a returning cancel of a RUNNING
BATCH job yielding CANCELLED with the backend-cancel effect. -/
theorem c5_witness :
    (mkJob JobType.BATCH Status.FAILED).cancel false =
      Except.ok (none, mkJob JobType.BATCH Status.FAILED, []) ∧
    some Status.CANCELLED = some Status.CANCELLED ∧
    jobRunningCancelled.config.status = Status.CANCELLED ∧
    [Effect.backendCancel] =
      [if (mkJob JobType.BATCH Status.RUNNING).config.jobType = JobType.LOCAL
        then Effect.terminateLocal else Effect.backendCancel] := by
  have h2 := (c5_cancel_amended (mkJob JobType.BATCH Status.RUNNING) false).2
    (some Status.CANCELLED) jobRunningCancelled
    [Effect.backendCancel] (by rfl) (by decide)
  exact ⟨(c5_cancel_amended (mkJob JobType.BATCH Status.FAILED) false).1 rfl,
    h2.1, h2.2.1, h2.2.2.1 rfl⟩

/-- C6: `update_snapshot` writes the config if and only if a snapshot path
is set and the dirty flag is on; the write is preceded by a `get_status()`
refresh and followed by clearing the dirty flag; in every other case it is
a complete no-op. -/
theorem c6_update_snapshot (env : Env) (j : Job) :
    (j.pathIsSet = false → j.update_snapshot env = Except.ok (j, [])) ∧
    (j.config.update = false → j.update_snapshot env = Except.ok (j, [])) ∧
    (j.pathIsSet = true → j.config.update = true →
      ∀ st j1 ef, j.get_status env false false = Except.ok (st, j1, ef) →
        j.update_snapshot env =
          Except.ok (Job.mk { j1.config with update := false } j1.localProcess,
            ef ++ [Effect.writeSnapshot (j1.config.path.getD "")])) := by
  refine ⟨?_, ?_, ?_⟩
  · intro hp; simp [Job.update_snapshot, hp]
  · intro hu
    by_cases hp : j.pathIsSet = false
    · simp [Job.update_snapshot, hp]
    · simp [Job.update_snapshot, hp, hu]
  · intro hp hu st j1 ef hgs
    simp [Job.update_snapshot, hp, hu, hgs]

/-- Witness for C6: no path → no write; clean config → no write; path set
and dirty → refresh, write, clear the flag. -/
theorem c6_witness :
    (mkJob JobType.BATCH Status.CONFIGURED).update_snapshot env0 =
      Except.ok (mkJob JobType.BATCH Status.CONFIGURED, []) ∧
    jobPathClean.update_snapshot env0 = Except.ok (jobPathClean, []) ∧
    jobPathDirty.update_snapshot env0 =
      Except.ok (jobPathClean, [Effect.writeSnapshot "snap.pkl"]) :=
  ⟨(c6_update_snapshot env0 (mkJob JobType.BATCH Status.CONFIGURED)).1 rfl,
   (c6_update_snapshot env0 jobPathClean).2.1 rfl,
   (c6_update_snapshot env0 jobPathDirty).2.2 rfl rfl Status.CONFIGURED
     jobPathDirty [] (by rfl)⟩

/-- C2: success classification of a FINISHED job by `get_status` (no
`skip_eval`, no `force_success_check`): without a `success_func`, a LOCAL
job becomes SUCCESS iff its stored exit code is the integer 0 and a BATCH
job becomes SUCCESS iff `backend.exitcode()` equals the literal `"0:0"`,
FAILED in every other case; a configured `success_func` overrides both. -/
theorem c2_success_classification (env : Env) (j : Job)
    (h : j.config.status = Status.FINISHED) :
    ∃ j1 ef, j.get_status env false false = Except.ok (j1.config.status, j1, ef) ∧
      (j.config.successFunc = none → j.config.jobType = JobType.LOCAL →
        j1.config.status =
          (if j.config.exitcode = some (ExitVal.int 0) then Status.SUCCESS
           else Status.FAILED)) ∧
      (j.config.successFunc = none → j.config.jobType = JobType.BATCH →
        j1.config.status =
          (if env.backendExitcode = "0:0" then Status.SUCCESS else Status.FAILED)) ∧
      (∀ b, j.config.successFunc = some b →
        j1.config.status = (if b then Status.SUCCESS else Status.FAILED)) := by
  cases hsf : j.config.successFunc with
  | some b =>
    refine ⟨Job.mk (j.config.setStatus (if b then Status.SUCCESS else Status.FAILED))
        j.localProcess, (Job.mk (j.config.setStatus (if b then Status.SUCCESS
        else Status.FAILED)) j.localProcess).finishEffects, ?_, ?_, ?_, ?_⟩
    · simp [Job.get_status, Job.isSuccess, h, hsf, JobConfig.setStatus]
    · intro h1; simp at h1
    · intro h1; simp at h1
    · intro b' hsf'
      injection hsf' with hb
      subst hb
      simp [JobConfig.setStatus]
  | none =>
    cases hjt : j.config.jobType with
    | LOCAL =>
      refine ⟨Job.mk (j.config.setStatus (if j.config.exitcode = some (ExitVal.int 0)
          then Status.SUCCESS else Status.FAILED)) j.localProcess,
        (Job.mk (j.config.setStatus (if j.config.exitcode = some (ExitVal.int 0)
          then Status.SUCCESS else Status.FAILED)) j.localProcess).finishEffects,
        ?_, ?_, ?_, ?_⟩
      · simp [Job.get_status, Job.isSuccess, h, hsf, hjt, JobConfig.setStatus]
      · intro _ _; simp [JobConfig.setStatus]
      · intro _ hb; exact absurd hb (by decide)
      · intro b' hsf'; simp at hsf'
    | BATCH =>
      refine ⟨Job.mk ((j.config.setExitcode (some (ExitVal.str env.backendExitcode))).setStatus
          (if env.backendExitcode = "0:0" then Status.SUCCESS else Status.FAILED))
          j.localProcess,
        Effect.backendExitcodeQuery ::
          (Job.mk ((j.config.setExitcode
            (some (ExitVal.str env.backendExitcode))).setStatus
            (if env.backendExitcode = "0:0" then Status.SUCCESS else Status.FAILED))
            j.localProcess).finishEffects,
        ?_, ?_, ?_, ?_⟩
      · simp [Job.get_status, Job.isSuccess, h, hsf, hjt, JobConfig.setStatus,
          JobConfig.setExitcode]
      · intro _ hb; exact absurd hb (by decide)
      · intro _ _; simp [JobConfig.setStatus]
      · intro b' hsf'; simp at hsf'

/-- Witness for C2 at a FINISHED BATCH job against a backend reporting
exit code string `"0:0"`. -/
theorem c2_witness :
    ∃ j1 ef, (mkJob JobType.BATCH Status.FINISHED).get_status env0 false false =
        Except.ok (j1.config.status, j1, ef) ∧
      ((mkJob JobType.BATCH Status.FINISHED).config.successFunc = none →
        (mkJob JobType.BATCH Status.FINISHED).config.jobType = JobType.LOCAL →
        j1.config.status =
          (if (mkJob JobType.BATCH Status.FINISHED).config.exitcode =
              some (ExitVal.int 0) then Status.SUCCESS else Status.FAILED)) ∧
      ((mkJob JobType.BATCH Status.FINISHED).config.successFunc = none →
        (mkJob JobType.BATCH Status.FINISHED).config.jobType = JobType.BATCH →
        j1.config.status =
          (if env0.backendExitcode = "0:0" then Status.SUCCESS else Status.FAILED)) ∧
      (∀ b, (mkJob JobType.BATCH Status.FINISHED).config.successFunc = some b →
        j1.config.status = (if b then Status.SUCCESS else Status.FAILED)) :=
  c2_success_classification env0 (mkJob JobType.BATCH Status.FINISHED) rfl

end Slurmy
